import Mathlib

/-!
Shallow embedding of `fuzzy_system.py`: signal-derived vital-sign extraction
(respiratory rate, heart rate, oxygen saturation), age-based patient
categorization, threshold lookup and violation-reason generation, together
with a Mamdani fuzzy inference engine modelled from the specification
(the engine is absent from the source file).

Real samples are modelled as rationals.  The oxygen-saturation computation
can divide by zero, which in the source's numpy arithmetic produces
infinities and NaN rather than an exception, so it is embedded over an
extended value type `EF` with IEEE-style special values.
-/

namespace FuzzySystem

/-- Maximum of a list of rationals (`np.max`); 0 on the empty list, which the
embedding never relies on. -/
def listMax : List ℚ → ℚ
  | [] => 0
  | h :: t => t.foldl max h

/-- Minimum of a list of rationals (`np.min`); 0 on the empty list. -/
def listMin : List ℚ → ℚ
  | [] => 0
  | h :: t => t.foldl min h

/-- Peak-to-peak amplitude, `np.ptp`: max minus min. -/
def ptp (l : List ℚ) : ℚ := listMax l - listMin l

/-- Arithmetic mean, `np.mean` (rational division; 0 on the empty list). -/
def mean (l : List ℚ) : ℚ := l.sum / l.length

/-- Extended rational values mirroring IEEE special values produced by numpy
floating-point arithmetic: finite, +inf, -inf, NaN. -/
inductive EF where
  | fin (q : ℚ)
  | pinf
  | ninf
  | nan
deriving DecidableEq

namespace EF

/-- Division with numpy/IEEE semantics: finite/0 gives a signed infinity
(NaN for 0/0), finite/inf gives 0, inf/inf gives NaN, NaN propagates. -/
def div : EF → EF → EF
  | fin a, fin b =>
      if b = 0 then
        if a = 0 then nan else if 0 < a then pinf else ninf
      else fin (a / b)
  | fin _, pinf => fin 0
  | fin _, ninf => fin 0
  | pinf, fin b => if 0 ≤ b then pinf else ninf
  | ninf, fin b => if 0 ≤ b then ninf else pinf
  | pinf, pinf => nan
  | pinf, ninf => nan
  | ninf, pinf => nan
  | ninf, ninf => nan
  | nan, _ => nan
  | _, nan => nan

/-- Multiplication with IEEE semantics; `0 * inf = NaN`, NaN propagates. -/
def mul : EF → EF → EF
  | fin a, fin b => fin (a * b)
  | fin a, pinf => if a = 0 then nan else if 0 < a then pinf else ninf
  | fin a, ninf => if a = 0 then nan else if 0 < a then ninf else pinf
  | pinf, fin b => if b = 0 then nan else if 0 < b then pinf else ninf
  | ninf, fin b => if b = 0 then nan else if 0 < b then ninf else pinf
  | pinf, pinf => pinf
  | pinf, ninf => ninf
  | ninf, pinf => ninf
  | ninf, ninf => pinf
  | nan, _ => nan
  | _, nan => nan

/-- Subtraction with IEEE semantics; `inf - inf = NaN`, NaN propagates. -/
def sub : EF → EF → EF
  | fin a, fin b => fin (a - b)
  | fin _, pinf => ninf
  | fin _, ninf => pinf
  | pinf, fin _ => pinf
  | ninf, fin _ => ninf
  | pinf, pinf => nan
  | ninf, ninf => nan
  | pinf, ninf => pinf
  | ninf, pinf => ninf
  | nan, _ => nan
  | _, nan => nan

/-- `np.clip(x, lo, hi)` = `min(max(x, lo), hi)`: infinities clamp to the
bounds, NaN passes through unclamped. -/
def clip (x : EF) (lo hi : ℚ) : EF :=
  match x with
  | fin q => fin (min (max q lo) hi)
  | pinf => fin hi
  | ninf => fin lo
  | nan => nan

end EF

/-- Whether an extended value is a finite number inside [85, 100], the
physiologically valid SpO2 band. -/
def inBand : EF → Bool
  | EF.fin q => decide (85 ≤ q ∧ q ≤ 100)
  | _ => false

/-- `calculate_oxygen_saturation(ppg_red, ppg_ir)` from the source:
AC = peak-to-peak, DC = mean per channel,
`spo2 = 110 - 25 * (ac_red / dc_red) / (ac_ir / dc_ir)`, then
`np.clip(spo2, 85, 100)`.  The divisions follow numpy floating-point
semantics via `EF`, so a zero DC level never raises: it yields an infinity
or NaN that is then clamped (or passed through, for NaN) by the clip. -/
def calculate_oxygen_saturation (ppg_red ppg_ir : List ℚ) : EF :=
  let ac_red := ptp ppg_red
  let dc_red := mean ppg_red
  let ac_ir := ptp ppg_ir
  let dc_ir := mean ppg_ir
  let spo2 := EF.sub (EF.fin 110)
    (EF.mul (EF.fin 25) (EF.div (EF.div (EF.fin ac_red) (EF.fin dc_red))
      (EF.div (EF.fin ac_ir) (EF.fin dc_ir))))
  EF.clip spo2 85 100

/-- Helper for `localMaxima`: scipy's inner plateau scan.  Starting at `j`,
advance while `j < iMax` and `x[j] = v`, returning the first index past the
plateau (fuel-bounded; the fuel supplied always suffices). -/
def findAhead (x : List ℚ) (iMax : ℕ) (v : ℚ) : ℕ → ℕ → ℕ
  | 0, j => j
  | fuel + 1, j =>
      if j < iMax ∧ x.getD j 0 = v then findAhead x iMax v fuel (j + 1) else j

/-- Helper for `localMaxima`: scipy `_local_maxima_1d` main loop.  `i` scans
from 1 to `iMax - 1`; a sample strictly above its left neighbour whose
plateau ends in a strictly smaller sample is a peak, recorded at the plateau
midpoint `(left + right) / 2` (Nat division). -/
def lmAux (x : List ℚ) (iMax : ℕ) : ℕ → ℕ → List ℕ
  | 0, _ => []
  | fuel + 1, i =>
      if i < iMax then
        if x.getD (i - 1) 0 < x.getD i 0 then
          let iA := findAhead x iMax (x.getD i 0) (fuel + 1) (i + 1)
          if x.getD iA 0 < x.getD i 0 then
            ((i + (iA - 1)) / 2) :: lmAux x iMax fuel (iA + 1)
          else
            lmAux x iMax fuel (i + 1)
        else
          lmAux x iMax fuel (i + 1)
      else []

/-- All local maxima of a signal, as scipy `_local_maxima_1d` computes them
(indices in increasing order; boundary samples are never peaks). -/
def localMaxima (x : List ℚ) : List ℕ :=
  lmAux x (x.length - 1) (x.length + 1) 1

/-- Stable insertion of index `a` into an index list sorted by ascending
priority: `a` goes before the first index of strictly larger priority. -/
def insertIdx (pri : List ℚ) (a : ℕ) : List ℕ → List ℕ
  | [] => [a]
  | b :: t => if pri.getD a 0 < pri.getD b 0 then a :: b :: t
              else b :: insertIdx pri a t

/-- Stable argsort by ascending priority (numpy `argsort`; for the small
equal-height peak lists arising here numpy's sort is also stable). -/
def argsortAsc (pri : List ℚ) : List ℕ :=
  (List.range pri.length).foldl (fun acc a => insertIdx pri a acc) []

/-- Helper for `selectByPeakDistance`: clear the keep-flags of peaks to the
left of the peak at position `j` (value `pj`) that are closer than `dist`
samples; `k + 1` is the next position to examine, stopping at the first peak
far enough away (peak positions are ascending, as in scipy). -/
def clearLeft (peaks : List ℕ) (dist pj : ℕ) : ℕ → List Bool → List Bool
  | 0, keep => keep
  | k + 1, keep =>
      if pj - peaks.getD k 0 < dist then
        clearLeft peaks dist pj k (keep.set k false)
      else keep

/-- Helper for `selectByPeakDistance`: clear the keep-flags of peaks to the
right of the peak with value `pj`, scanning positions `k, k+1, ...` below `m`
while closer than `dist` samples (fuel-bounded by the list length). -/
def clearRight (peaks : List ℕ) (dist pj m : ℕ) : ℕ → ℕ → List Bool → List Bool
  | 0, _, keep => keep
  | fuel + 1, k, keep =>
      if k < m ∧ peaks.getD k 0 - pj < dist then
        clearRight peaks dist pj m fuel (k + 1) (keep.set k false)
      else keep

/-- scipy `_select_by_peak_distance`: process peaks from highest to lowest
priority; each still-kept peak clears all closer-than-`dist` neighbours. -/
def selectByPeakDistance (peaks : List ℕ) (pri : List ℚ) (dist : ℕ) : List Bool :=
  let order := (argsortAsc pri).reverse
  order.foldl
    (fun keep j =>
      if keep.getD j false then
        let pj := peaks.getD j 0
        clearRight peaks dist pj peaks.length peaks.length (j + 1)
          (clearLeft peaks dist pj j keep)
      else keep)
    (List.replicate peaks.length true)

/-- `scipy.signal.find_peaks(x, distance=d)`: local maxima filtered by the
minimum inter-peak distance `ceil(d)`, keeping higher peaks first. -/
def find_peaks (x : List ℚ) (distance : ℚ) : List ℕ :=
  let peaks := localMaxima x
  let dist := (Int.ceil distance).toNat
  let pri := peaks.map (fun p => x.getD p 0)
  let keep := selectByPeakDistance peaks pri dist
  ((List.range peaks.length).filter (fun i => keep.getD i false)).map
    (fun i => peaks.getD i 0)

/-- Consecutive differences of the peak index list (`np.diff`). -/
def natDiffs (l : List ℕ) : List ℕ := l.tail.zipWith (fun b a => b - a) l

/-- `calculate_heart_rate(ppg_signal, sampling_rate)` from the source.  The
random source of `np.random.randint(50, 150)` is made explicit: `rand`
selects the fallback value `50 + rand % 100`, returned whenever peak
detection finds at most one peak.  With more than one peak the result is
`60 / mean(np.diff(peaks) / sampling_rate)`. -/
def calculate_heart_rate (rand : ℕ) (ppg_signal : List ℚ) (sampling_rate : ℚ) : ℚ :=
  let peaks := find_peaks ppg_signal (sampling_rate / 2)
  if 1 < peaks.length then
    let rr_intervals := (natDiffs peaks).map (fun d => (d : ℚ) / sampling_rate)
    60 / mean rr_intervals
  else
    (50 : ℚ) + (rand % 100 : ℕ)

/-- Full discrete convolution of two rational sequences (`np.convolve`,
mode `full`): entry `n` is `Σ_i a[i] * v[n-i]`. -/
def convolveFull (a v : List ℚ) : List ℚ :=
  (List.range (a.length + v.length - 1)).map
    (fun n => ((List.range (n + 1)).map
      (fun i => a.getD i 0 * v.getD (n - i) 0)).sum)

/-- `np.convolve(a, v, mode='valid')`: the slice of the full convolution
where the shorter sequence fully overlaps the longer one. -/
def convolveValid (a v : List ℚ) : List ℚ :=
  ((convolveFull a v).drop (min a.length v.length - 1)).take
    (max a.length v.length - min a.length v.length + 1)

/-- `calculate_respiratory_rate(accelerometer_data, sampling_rate)` from the
source: smooth with a width-5 moving average (`np.convolve` with
`np.ones(5)/5`, mode `valid`), peak-detect with minimum distance
`sampling_rate / 2`, and return `(len(peaks) / duration_in_seconds) * 60`. -/
def calculate_respiratory_rate (accelerometer_data : List ℚ) (sampling_rate : ℚ) : ℚ :=
  let smoothed_data := convolveValid accelerometer_data (List.replicate 5 (1 / 5))
  let peaks := find_peaks smoothed_data (sampling_rate / 2)
  let duration_in_seconds := (accelerometer_data.length : ℚ) / sampling_rate
  ((peaks.length : ℚ) / duration_in_seconds) * 60

/-- `get_patient_category(age)` from the source: `None -> 'unknown'`,
`age < 1 -> 'infant'`, `age < 5 -> 'preschooler'`, `age < 13 -> 'school_age'`,
otherwise `'adult'`. -/
def get_patient_category (age : Option ℚ) : String :=
  match age with
  | none => "unknown"
  | some a =>
      if a < 1 then "infant"
      else if a < 5 then "preschooler"
      else if a < 13 then "school_age"
      else "adult"

/-- The four threshold values returned by `get_thresholds`. -/
structure Thresholds where
  oxygen_saturation : ℚ
  respiratory_rate : ℚ
  heart_rate_low : ℚ
  heart_rate_high : ℚ
deriving DecidableEq

/-- `get_thresholds(category)` from the source: fixed per-category table,
`None` for any other category string. -/
def get_thresholds (category : String) : Option Thresholds :=
  if category = "infant" then
    some ⟨94, 60, 60, 120⟩
  else if category = "preschooler" then
    some ⟨94, 40, 60, 110⟩
  else if category = "school_age" then
    some ⟨94, 30, 60, 100⟩
  else if category = "adult" then
    some ⟨92, 25, 60, 100⟩
  else none

/-- The script's guard `if category == 'unknown' or not thresh:` — threshold
evaluation proceeds only when it fails. -/
def evaluation_proceeds (category : String) : Bool :=
  !(category == "unknown" || (get_thresholds category).isNone)

/-- The three vital-sign values the script's threshold block compares. -/
structure Vitals where
  oxygen_saturation : ℚ
  respiratory_rate : ℚ
  heart_rate : ℚ
deriving DecidableEq

/-- One appended violation reason, carrying the data interpolated into the
source's f-string (value and the violated threshold(s)). -/
inductive Reason where
  | lowOxygenSaturation (value threshold : ℚ)
  | highRespiratoryRate (value threshold : ℚ)
  | abnormalHeartRate (value low high : ℚ)
deriving DecidableEq

/-- The kind of a violation reason, forgetting the interpolated numbers. -/
inductive RKind where
  | lowSpO2
  | highRR
  | abnormalHR
deriving DecidableEq

/-- Project a reason to its kind. -/
def kindOf : Reason → RKind
  | Reason.lowOxygenSaturation _ _ => RKind.lowSpO2
  | Reason.highRespiratoryRate _ _ => RKind.highRR
  | Reason.abnormalHeartRate _ _ _ => RKind.abnormalHR

/-- The `reasons` list built by the script: append low-SpO2 when
`oxygen_saturation_value < thresh['oxygen_saturation']`, then high-RR when
`respiratory_rate_value > thresh['respiratory_rate']`, then abnormal-HR when
`heart_rate_value < thresh['heart_rate_low'] or > thresh['heart_rate_high']`,
in that textual order. -/
def reasons (v : Vitals) (t : Thresholds) : List Reason :=
  (if v.oxygen_saturation < t.oxygen_saturation then
    [Reason.lowOxygenSaturation v.oxygen_saturation t.oxygen_saturation]
   else []) ++
  (if v.respiratory_rate > t.respiratory_rate then
    [Reason.highRespiratoryRate v.respiratory_rate t.respiratory_rate]
   else []) ++
  (if v.heart_rate < t.heart_rate_low ∨ v.heart_rate > t.heart_rate_high then
    [Reason.abnormalHeartRate v.heart_rate t.heart_rate_low t.heart_rate_high]
   else [])

/-- The script's `if reasons:` — an alert is sent to the sink exactly when
the reason list is non-empty. -/
def sends_alert (v : Vitals) (t : Thresholds) : Bool :=
  !(reasons v t).isEmpty

/-- Modelled from the spec: the source file imports `skfuzzy` but contains no
fuzzy inference engine, so the membership model follows §3: a label plus a
triangular shape over breakpoints `a ≤ b ≤ c`. -/
structure MembershipFunction where
  label : String
  a : ℚ
  b : ℚ
  c : ℚ
deriving DecidableEq

/-- Modelled from the spec: triangular membership degree — 0 outside
`[a, c]`, linear rise `a → b`, linear fall `b → c`, peak 1 at `b`;
degenerate `a = b` or `b = c` yields a ramp. -/
def triMembership (a b c x : ℚ) : ℚ :=
  if x < a ∨ c < x then 0
  else if x ≤ b then (if a = b then 1 else (x - a) / (b - a))
  else (if b = c then 1 else (c - x) / (c - b))

/-- Modelled from the spec: a linguistic variable — name, universe as a
closed interval with a fixed discretization step, and labelled membership
functions. -/
structure FuzzyVariable where
  name : String
  lo : ℚ
  hi : ℚ
  step : ℚ
  mfs : List MembershipFunction
deriving DecidableEq

/-- Modelled from the spec: a rule antecedent — an expression tree over
(variable, label) membership degrees combined with AND (min) and OR (max). -/
inductive AntExpr where
  | leaf (var label : String)
  | conj (l r : AntExpr)
  | disj (l r : AntExpr)
deriving DecidableEq

/-- Modelled from the spec: a rule — antecedent tree plus the consequent
label it activates on the single output variable. -/
structure Rule where
  antecedent : AntExpr
  consequent_label : String
deriving DecidableEq

/-- Modelled from the spec: the fuzzy inference engine configuration,
immutable after construction — antecedent variables, one consequent
variable, and a rule set.  Absent from the source file. -/
structure FuzzyInferenceEngine where
  antecedents : List FuzzyVariable
  consequent : FuzzyVariable
  rules : List Rule
deriving DecidableEq

/-- Modelled from the spec: fuzzification — the degree of a crisp input for
one (variable, label) leaf.  The crisp value is clamped to the universe
bounds before lookup; a missing variable or label contributes degree 0. -/
def fuzzify (e : FuzzyInferenceEngine) (inputs : List (String × ℚ))
    (var label : String) : ℚ :=
  match e.antecedents.find? (fun v => v.name = var),
        inputs.find? (fun p => p.1 = var) with
  | some v, some p =>
      let xc := min (max p.2 v.lo) v.hi
      match v.mfs.find? (fun m => m.label = label) with
      | some m => triMembership m.a m.b m.c xc
      | none => 0
  | _, _ => 0

/-- Modelled from the spec: rule firing strength — evaluate the antecedent
tree bottom-up, AND = min, OR = max, leaves from fuzzification. -/
def firingStrength (e : FuzzyInferenceEngine) (inputs : List (String × ℚ)) :
    AntExpr → ℚ
  | AntExpr.leaf var label => fuzzify e inputs var label
  | AntExpr.conj l r => min (firingStrength e inputs l) (firingStrength e inputs r)
  | AntExpr.disj l r => max (firingStrength e inputs l) (firingStrength e inputs r)

/-- Modelled from the spec: membership of the consequent variable's label at
a universe point (0 for an unknown label). -/
def consequentMembership (e : FuzzyInferenceEngine) (label : String) (x : ℚ) : ℚ :=
  match e.consequent.mfs.find? (fun m => m.label = label) with
  | some m => triMembership m.a m.b m.c x
  | none => 0

/-- Modelled from the spec: implication and aggregation — at each universe
point, the max over all rules of the consequent membership clipped (min) at
the rule's firing strength. -/
def aggregatedAt (e : FuzzyInferenceEngine) (inputs : List (String × ℚ)) (x : ℚ) : ℚ :=
  (e.rules.map (fun r =>
    min (firingStrength e inputs r.antecedent)
        (consequentMembership e r.consequent_label x))).foldl max 0

/-- Modelled from the spec: the discretized universe of a variable — points
`lo, lo + step, ...` up to `hi`. -/
def universePoints (v : FuzzyVariable) : List ℚ :=
  (List.range ((Int.floor ((v.hi - v.lo) / v.step)).toNat + 1)).map
    (fun i => v.lo + v.step * i)

/-- Modelled from the spec: `FuzzyInferenceEngine.evaluate` — fuzzify, fire
rules, aggregate, then centroid-defuzzify over the discretized consequent
universe; `none` models `NoRuleFiredError` when the aggregated area is 0. -/
def evaluate (e : FuzzyInferenceEngine) (inputs : List (String × ℚ)) : Option ℚ :=
  let pts := universePoints e.consequent
  let num := (pts.map (fun x => x * aggregatedAt e inputs x)).sum
  let den := (pts.map (fun x => aggregatedAt e inputs x)).sum
  if den = 0 then none else some (num / den)

/-- The spec's §8 heart-rate test signal: 100 samples with unit pulses at
indices 10, 35, 60 and 85, zero elsewhere. -/
def pulseSignal : List ℚ :=
  (List.range 100).map (fun i => if i = 10 ∨ i = 35 ∨ i = 60 ∨ i = 85 then 1 else 0)

/-- A small concrete antecedent variable used to exercise the engine. -/
def heartRateVariable : FuzzyVariable :=
  ⟨"heart_rate", 0, 200, 1,
    [⟨"low", 0, 0, 60⟩, ⟨"normal", 40, 80, 120⟩, ⟨"high", 100, 200, 200⟩]⟩

/-- A small concrete consequent variable used to exercise the engine. -/
def riskVariable : FuzzyVariable :=
  ⟨"risk", 0, 100, 1, [⟨"low", 0, 0, 50⟩, ⟨"high", 50, 100, 100⟩]⟩

/-- A small concrete engine configuration used to exercise the engine. -/
def sampleEngine : FuzzyInferenceEngine :=
  ⟨[heartRateVariable], riskVariable,
    [⟨AntExpr.leaf "heart_rate" "high", "high"⟩,
     ⟨AntExpr.disj (AntExpr.leaf "heart_rate" "low")
        (AntExpr.leaf "heart_rate" "normal"), "low"⟩]⟩

end FuzzySystem

namespace FuzzySystem

/-- C1: in `calculate_heart_rate`, whenever peak detection finds fewer than
2 peaks the code does not fail at all — for every draw of the random source
it returns the substituted fallback value `randint(50, 150)`, i.e. a number
in [50, 150).  Shown at the failing input of 50 zero samples at 50 Hz. -/
theorem heart_rate_fallback_is_random (rand : ℕ) :
    calculate_heart_rate rand (List.replicate 50 0) 50 = (50 : ℚ) + (rand % 100 : ℕ) ∧
    (50 : ℚ) ≤ calculate_heart_rate rand (List.replicate 50 0) 50 ∧
    calculate_heart_rate rand (List.replicate 50 0) 50 < 150 := by
  have hp : find_peaks (List.replicate 50 (0 : ℚ)) (50 / 2) = [] := rfl
  have hval : calculate_heart_rate rand (List.replicate 50 0) 50
      = (50 : ℚ) + (rand % 100 : ℕ) := by
    unfold calculate_heart_rate
    rw [hp]
    exact rfl
  have hb : rand % 100 < 100 := Nat.mod_lt _ (by norm_num)
  have hbq : ((rand % 100 : ℕ) : ℚ) < 100 := by exact_mod_cast hb
  have hge : (0 : ℚ) ≤ ((rand % 100 : ℕ) : ℚ) := by positivity
  refine ⟨hval, ?_, ?_⟩ <;> rw [hval] <;> linarith

/-- C1 witness: at `rand = 7` the fallback is the concrete substituted value
57 bpm. -/
theorem heart_rate_fallback_is_random_witness :
    calculate_heart_rate 7 (List.replicate 50 0) 50 = (50 : ℚ) + ((7 : ℕ) % 100 : ℕ) ∧
    (50 : ℚ) ≤ calculate_heart_rate 7 (List.replicate 50 0) 50 ∧
    calculate_heart_rate 7 (List.replicate 50 0) 50 < 150 :=
  heart_rate_fallback_is_random 7

/-- C2: with a zero DC level in the IR channel (`ppg_ir = [-1, 1]`, mean 0)
`calculate_oxygen_saturation` does not surface any error — the numpy-style
division by zero produces an infinity that the final clip silently turns
into the in-band number 100. -/
theorem spo2_zero_dc_silently_clamped :
    mean [(-1 : ℚ), 1] = 0 ∧
    calculate_oxygen_saturation [1, 3] [-1, 1] = EF.fin 100 := by
  constructor
  · norm_num [mean]
  · norm_num [calculate_oxygen_saturation, ptp, mean, listMax, listMin,
      EF.div, EF.mul, EF.sub, EF.clip]

/-- C3: for the 5-sample input `[1, 1, 1, 1, 1]` at 50 Hz, the smoothed
signal has exactly 1 sample (< 2), yet `calculate_respiratory_rate` does not
fail — it returns the rate 0 breaths per minute. -/
theorem respiratory_rate_short_smoothed_returns_zero :
    (convolveValid [(1 : ℚ), 1, 1, 1, 1] (List.replicate 5 (1 / 5))).length = 1 ∧
    calculate_respiratory_rate [1, 1, 1, 1, 1] 50 = 0 := by
  have hlen : (convolveValid [(1 : ℚ), 1, 1, 1, 1] (List.replicate 5 (1 / 5))).length = 1 := rfl
  refine ⟨hlen, ?_⟩
  obtain ⟨q, hq⟩ := List.length_eq_one.mp hlen
  have hfp : find_peaks [q] (50 / 2) = [] := rfl
  unfold calculate_respiratory_rate
  simp only [hq, hfp]
  norm_num

/-- C4: `evaluate` is deterministic — two engine instances with identical
construction inputs produce identical risk scores on identical crisp
inputs.  The engine is modelled from the spec (§4.3), the source file
importing but never building a fuzzy system. -/
theorem evaluate_deterministic (e₁ e₂ : FuzzyInferenceEngine)
    (inputs₁ inputs₂ : List (String × ℚ))
    (he : e₁ = e₂) (hi : inputs₁ = inputs₂) :
    evaluate e₁ inputs₁ = evaluate e₂ inputs₂ := by
  rw [he, hi]

/-- C4 witness: two identically configured sample engines agree at the crisp
input `heart_rate = 130`. -/
theorem evaluate_deterministic_witness :
    evaluate sampleEngine [("heart_rate", 130)]
      = evaluate sampleEngine [("heart_rate", 130)] :=
  evaluate_deterministic sampleEngine sampleEngine
    [("heart_rate", 130)] [("heart_rate", 130)] rfl rfl

/-- C5: the script's `reasons` list holds, in the fixed textual order,
low-SpO2 (value < min), then high-RR (value > max), then abnormal-HR
(value < low or > high), each present exactly when its violation holds; an
alert is withheld exactly when the list is empty; and the spec's §8 vitals
(SpO2 90, RR 50, HR 130) against the adult thresholds yield exactly the
three reasons in that order. -/
theorem reasons_order_and_content (v : Vitals) (t : Thresholds) :
    ((reasons v t).map kindOf =
      (if v.oxygen_saturation < t.oxygen_saturation then [RKind.lowSpO2] else []) ++
      (if v.respiratory_rate > t.respiratory_rate then [RKind.highRR] else []) ++
      (if v.heart_rate < t.heart_rate_low ∨ v.heart_rate > t.heart_rate_high then
        [RKind.abnormalHR] else [])) ∧
    (sends_alert v t = false ↔ reasons v t = []) ∧
    reasons ⟨90, 50, 130⟩ ⟨92, 25, 60, 100⟩ =
      [Reason.lowOxygenSaturation 90 92, Reason.highRespiratoryRate 50 25,
       Reason.abnormalHeartRate 130 60 100] ∧
    get_thresholds "adult" = some ⟨92, 25, 60, 100⟩ := by
  refine ⟨?_, ?_, ?_, by decide⟩
  · unfold reasons
    split_ifs <;> simp [kindOf]
  · unfold sends_alert
    simp [List.isEmpty_iff]
  · norm_num [reasons]

/-- C5 witness: the concrete adult instance of the order-and-content
theorem. -/
theorem reasons_order_and_content_witness :
    reasons ⟨90, 50, 130⟩ ⟨92, 25, 60, 100⟩ =
      [Reason.lowOxygenSaturation 90 92, Reason.highRespiratoryRate 50 25,
       Reason.abnormalHeartRate 130 60 100] :=
  (reasons_order_and_content ⟨90, 50, 130⟩ ⟨92, 25, 60, 100⟩).2.2.1

/-- C6: `get_patient_category` is total in the age and matches the spec's
bands — `none` gives `unknown`, `age < 1` infant, `1 ≤ age < 5`
preschooler, `5 ≤ age < 13` school_age, `13 ≤ age` adult — including each
boundary instance of §8. -/
theorem get_patient_category_bands :
    get_patient_category none = "unknown" ∧
    (∀ a : ℚ, a < 1 → get_patient_category (some a) = "infant") ∧
    (∀ a : ℚ, 1 ≤ a → a < 5 → get_patient_category (some a) = "preschooler") ∧
    (∀ a : ℚ, 5 ≤ a → a < 13 → get_patient_category (some a) = "school_age") ∧
    (∀ a : ℚ, 13 ≤ a → get_patient_category (some a) = "adult") ∧
    get_patient_category (some (99 / 100)) = "infant" ∧
    get_patient_category (some 1) = "preschooler" ∧
    get_patient_category (some (499 / 100)) = "preschooler" ∧
    get_patient_category (some 5) = "school_age" ∧
    get_patient_category (some (1299 / 100)) = "school_age" ∧
    get_patient_category (some 13) = "adult" := by
  refine ⟨rfl, ?_, ?_, ?_, ?_, ?_, ?_, ?_, ?_, ?_, ?_⟩
  · intro a h
    simp [get_patient_category, h]
  · intro a h1 h2
    simp [get_patient_category, not_lt.mpr h1, h2]
  · intro a h1 h2
    have k1 : ¬ a < 1 := not_lt.mpr (by linarith)
    simp [get_patient_category, k1, not_lt.mpr h1, h2]
  · intro a h1
    have k1 : ¬ a < 1 := not_lt.mpr (by linarith)
    have k5 : ¬ a < 5 := not_lt.mpr (by linarith)
    simp [get_patient_category, k1, k5, not_lt.mpr h1]
  all_goals norm_num [get_patient_category]

/-- C6 witness: the band theorem applied at ages 0.5, 3, 8 and 30. -/
theorem get_patient_category_bands_witness :
    get_patient_category (some (1 / 2)) = "infant" ∧
    get_patient_category (some 3) = "preschooler" ∧
    get_patient_category (some 8) = "school_age" ∧
    get_patient_category (some 30) = "adult" :=
  ⟨get_patient_category_bands.2.1 (1 / 2) (by norm_num),
   get_patient_category_bands.2.2.1 3 (by norm_num) (by norm_num),
   get_patient_category_bands.2.2.2.1 8 (by norm_num) (by norm_num),
   get_patient_category_bands.2.2.2.2.1 30 (by norm_num)⟩

/-- C7: `get_thresholds` returns exactly the fixed table — infant
(94, 60, 60, 120), preschooler (94, 40, 60, 110), school_age
(94, 30, 60, 100), adult (92, 25, 60, 100). -/
theorem get_thresholds_table :
    get_thresholds "infant" = some ⟨94, 60, 60, 120⟩ ∧
    get_thresholds "preschooler" = some ⟨94, 40, 60, 110⟩ ∧
    get_thresholds "school_age" = some ⟨94, 30, 60, 100⟩ ∧
    get_thresholds "adult" = some ⟨92, 25, 60, 100⟩ := by
  decide

/-- C8: threshold lookup fails closed — `unknown` (and every category
outside the four known ones) yields no thresholds, and the script's guard
then skips threshold evaluation entirely. -/
theorem get_thresholds_fails_closed :
    get_thresholds "unknown" = none ∧
    evaluation_proceeds "unknown" = false ∧
    (∀ c : String, c ≠ "infant" → c ≠ "preschooler" → c ≠ "school_age" →
      c ≠ "adult" → get_thresholds c = none) ∧
    (∀ c : String, get_thresholds c = none → evaluation_proceeds c = false) := by
  refine ⟨by decide, by decide, ?_, ?_⟩
  · intro c h1 h2 h3 h4
    simp [get_thresholds, h1, h2, h3, h4]
  · intro c h
    simp [evaluation_proceeds, h]

/-- C8 witness: the category string `toddler` is outside the table, gets no
thresholds, and evaluation does not proceed. -/
theorem get_thresholds_fails_closed_witness :
    get_thresholds "toddler" = none ∧ evaluation_proceeds "toddler" = false := by
  have h := get_thresholds_fails_closed.2.2.1 "toddler"
    (by decide) (by decide) (by decide) (by decide)
  exact ⟨h, get_thresholds_fails_closed.2.2.2 "toddler" h⟩

/-- C9 counterexample: two flat signals have nonzero DC levels (mean 1) yet
`calculate_oxygen_saturation` returns NaN (numpy 0/0), which is not a value
in [85, 100] — so the claim as stated fails on the code. -/
theorem spo2_flat_signal_not_in_band :
    mean [(1 : ℚ), 1] = 1 ∧
    calculate_oxygen_saturation [1, 1] [1, 1] = EF.nan ∧
    inBand (calculate_oxygen_saturation [1, 1] [1, 1]) = false := by
  refine ⟨by norm_num [mean], ?_, ?_⟩ <;>
    norm_num [calculate_oxygen_saturation, ptp, mean, listMax, listMin,
      EF.div, EF.mul, EF.sub, EF.clip, inBand]

/-- C9 (amended): for nonempty inputs with nonzero DC levels in both
channels and nonzero peak-to-peak amplitude in the IR channel, the result
is exactly `110 - 25 * (AC_red/DC_red)/(AC_ir/DC_ir)` clamped to [85, 100],
hence always a finite value inside the band. -/
theorem spo2_formula_clamped (red ir : List ℚ) (_hred : red ≠ []) (_hir : ir ≠ [])
    (hdcr : mean red ≠ 0) (hdci : mean ir ≠ 0) (haci : ptp ir ≠ 0) :
    calculate_oxygen_saturation red ir =
      EF.fin (min (max (110 - 25 * ((ptp red / mean red) / (ptp ir / mean ir))) 85) 100) ∧
    inBand (calculate_oxygen_saturation red ir) = true := by
  have h3 : ptp ir / mean ir ≠ 0 := div_ne_zero haci hdci
  have hval : calculate_oxygen_saturation red ir =
      EF.fin (min (max (110 - 25 * ((ptp red / mean red) / (ptp ir / mean ir))) 85) 100) := by
    unfold calculate_oxygen_saturation
    simp only [EF.div, EF.mul, EF.sub, EF.clip, if_neg hdcr, if_neg hdci, if_neg h3]
  refine ⟨hval, ?_⟩
  rw [hval]
  unfold inBand
  simp only [decide_eq_true_eq]
  exact ⟨le_min (le_trans (by norm_num) (le_max_right _ _)) (by norm_num),
    min_le_right _ _⟩

/-- C9 witness: red `[1, 3]`, IR `[1, 2]` satisfy the hypotheses and give
the clamped value (here the lower bound 85). -/
theorem spo2_formula_clamped_witness :
    calculate_oxygen_saturation [1, 3] [1, 2] =
      EF.fin (min (max (110 - 25 * ((ptp [1, 3] / mean [1, 3]) /
        (ptp [1, 2] / mean [1, 2]))) 85) 100) ∧
    inBand (calculate_oxygen_saturation [1, 3] [1, 2]) = true :=
  spo2_formula_clamped [1, 3] [1, 2] (by decide) (by decide)
    (by norm_num [mean]) (by norm_num [mean])
    (by norm_num [ptp, listMax, listMin])

/-- C10: whenever peak detection (minimum distance `sampling_rate / 2`)
finds at least 2 peaks, `calculate_heart_rate` returns 60 divided by the
mean inter-peak interval in seconds, independent of the random source; and
the spec's §8 signal with peaks at [10, 35, 60, 85] at 50 Hz gives exactly
120 bpm. -/
theorem heart_rate_mean_interval (rand : ℕ) (ppg : List ℚ) (rate : ℚ)
    (h : 1 < (find_peaks ppg (rate / 2)).length) :
    calculate_heart_rate rand ppg rate =
      60 / mean ((natDiffs (find_peaks ppg (rate / 2))).map (fun d => (d : ℚ) / rate)) ∧
    calculate_heart_rate 0 pulseSignal 50 = 120 := by
  constructor
  · unfold calculate_heart_rate
    rw [if_pos h]
  · have h2 : (50 : ℚ) / 2 = 25 := by norm_num
    have hp : find_peaks pulseSignal 25 = [10, 35, 60, 85] := by decide
    have hd : natDiffs [10, 35, 60, 85] = [25, 25, 25] := by decide
    unfold calculate_heart_rate
    rw [h2, hp]
    norm_num [hd, mean]

/-- C10 witness: the pulse-train signal has 4 detected peaks, its heart rate
is the mean-interval formula, and that value is 120 bpm. -/
theorem heart_rate_mean_interval_witness :
    1 < (find_peaks pulseSignal ((50 : ℚ) / 2)).length ∧
    calculate_heart_rate 0 pulseSignal 50 =
      60 / mean ((natDiffs (find_peaks pulseSignal ((50 : ℚ) / 2))).map
        (fun d => (d : ℚ) / 50)) ∧
    calculate_heart_rate 0 pulseSignal 50 = 120 := by
  have h52 : (50 : ℚ) / 2 = 25 := by norm_num
  have h : 1 < (find_peaks pulseSignal ((50 : ℚ) / 2)).length := by
    rw [h52]
    decide
  exact ⟨h, (heart_rate_mean_interval 0 pulseSignal 50 h).1,
    (heart_rate_mean_interval 0 pulseSignal 50 h).2⟩

end FuzzySystem
